import Mathlib

/-!
Verification of the request lifecycle controller of `grpc-ts`
(`src/http/http.ts`): the `load`-event response decoding pipeline
(`onready`), the terminal-event handlers, the cancellation registry, the
`grpcCancel` handle, and the trailing promise chain.

The file is a shallow embedding.  Code of the repository that lives in
modules not present under `src/` (the frame parser, the status mapper,
the byte utilities) is modelled from the specification where a claim
depends on it; the message codec is kept opaque (a parameter
`dec : List Nat → Except ε α`, with `Except.error` standing for a thrown
exception).  Host-language behaviour (JavaScript `Number`, promise
resolution) is modelled explicitly and marked as such.
-/

namespace GrpcTs

/-- Canonical gRPC status codes used by the controller
(`StatusCode` enum of `src/http/status.ts`, standard numbering named in
the spec: OK, CANCELLED, NOT_FOUND, ...). -/
def StatusCode.OK : Int := 0

/-- gRPC status code CANCELLED. -/
def StatusCode.CANCELLED : Int := 1

/-- gRPC status code UNKNOWN. -/
def StatusCode.UNKNOWN : Int := 2

/-- gRPC status code NOT_FOUND. -/
def StatusCode.NOT_FOUND : Int := 5

/-- Modelled from the spec: `fromHttpStatus` of `src/http/status.ts`
(not under `src/`), the Status Mapper table of spec section 4.3:
400→INVALID_ARGUMENT(3), 401→UNAUTHENTICATED(16), 403→PERMISSION_DENIED(7),
404→NOT_FOUND(5), 409→ABORTED(10), 412→FAILED_PRECONDITION(9),
429→RESOURCE_EXHAUSTED(8), 499→CANCELLED(1), 500→UNKNOWN(2),
501→UNIMPLEMENTED(12), 503→UNAVAILABLE(14), 504→DEADLINE_EXCEEDED(4),
anything unmapped → UNKNOWN(2). -/
def fromHttpStatus (status : Nat) : Int :=
  if status = 400 then 3
  else if status = 401 then 16
  else if status = 403 then 7
  else if status = 404 then 5
  else if status = 409 then 10
  else if status = 412 then 9
  else if status = 429 then 8
  else if status = 499 then 1
  else if status = 500 then 2
  else if status = 501 then 12
  else if status = 503 then 14
  else if status = 504 then 4
  else 2

/-- Value of a nonempty all-decimal-digit character list, `none` otherwise. -/
def decDigits? (cs : List Char) : Option Nat :=
  if cs.isEmpty then none
  else
    cs.foldl
      (fun acc c =>
        match acc with
        | none => none
        | some n => if c.isDigit then some (10 * n + (c.toNat - 48)) else none)
      (some 0)

/-- Strip leading and trailing spaces (the whitespace forms the claims
exercise). -/
def jsStrip (cs : List Char) : List Char :=
  ((cs.dropWhile fun c => c = ' ').reverse.dropWhile fun c => c = ' ').reverse

/-- Modelled from the host language: JavaScript `Number(s)` on a string,
restricted to the forms the claims exercise (optional sign, decimal
digits, surrounding spaces; the empty or all-space string is `0`).
`none` stands for `NaN`; any comparison with `NaN` is false, which the
call sites below encode explicitly. -/
def jsNumber (s : String) : Option Int :=
  match jsStrip s.toList with
  | [] => some 0
  | '-' :: rest => (decDigits? rest).map fun n => -(n : Int)
  | '+' :: rest => (decDigits? rest).map fun n => (n : Int)
  | cs => (decDigits? cs).map fun n => (n : Int)

/-- A JavaScript number slot that may also be absent: `undef` is the
`undefined` value (field never set), `nan` is `NaN`, `num n` an integer. -/
inductive GCode where
  | undef : GCode
  | nan : GCode
  | num : Int → GCode
deriving DecidableEq, Repr

/-- `Number(s)` as stored into a `grpcCode` slot: `NaN` stays `NaN`
(the source's `Number(status) ?? 0` never takes the `?? 0` branch, since
`Number` never yields `null`/`undefined`). -/
def jsNumberCode (s : String) : GCode :=
  match jsNumber s with
  | some n => GCode.num n
  | none => GCode.nan

/-- The `data` payload attached to failure outcomes.  The constructors
name the source expression producing the value; `bufToString` and
`safeJSON` live in `src/http/utils.ts` (not under `src/`) and are kept
opaque (injective constructors), since no claim inspects their output. -/
inductive ErrData (ε : Type) where
  | timeoutMs : Nat → ErrData ε
  | bufString : Option (List Nat) → ErrData ε
  | safeJSONOf : String → ErrData ε
  | thrown : ε → ErrData ε
deriving DecidableEq, Repr

/-- The error object of a failure outcome (`GError` of
`src/http/types.ts` as built by `src/http/http.ts`): absent fields are
`none` / `GCode.undef`. -/
structure GErr (ε : Type) where
  message : Option String := none
  data : Option (ErrData ε) := none
  httpStatus : Option Nat := none
  grpcCode : GCode := GCode.undef
deriving DecidableEq, Repr

/-- The outcome of one call (`GOutput` of `src/http/types.ts`):
`success data` is `{ success: true, data }`, `failure e` is
`{ success: false, error: e }`. -/
inductive GOutput (α ε : Type) where
  | success : α → GOutput α ε
  | failure : GErr ε → GOutput α ε
deriving DecidableEq, Repr

/-- A parsed frame (`Chunk` of `src/http/parser.ts`, not under `src/`;
shape as the spec's Frame data model): a `message` chunk carries payload
bytes (`chunkType = MESSAGE`, field `data`), a `trailers` chunk carries
the decoded trailer key/value pairs (`chunkType = TRAILERS`, field
`trailers`). -/
inductive Chunk where
  | message : List Nat → Chunk
  | trailers : List (String × String) → Chunk
deriving DecidableEq, Repr

/-- ASCII lower-casing of one character. -/
def lowerChar (c : Char) : Char :=
  if 'A' ≤ c ∧ c ≤ 'Z' then Char.ofNat (c.toNat + 32) else c

/-- ASCII lower-casing of a string. -/
def lowerStr (s : String) : String :=
  String.mk (s.toList.map lowerChar)

/-- Modelled from the spec: access to the Trailer Decoder's mapping
(spec section 4.2: keys compared case-insensitively, last occurrence
wins on duplicates). -/
def tLookup (fields : List (String × String)) (key : String) : Option String :=
  ((fields.filter fun kv => lowerStr kv.1 == lowerStr key).getLast?).map fun kv => kv.2

/-- Trailer key for the gRPC status (`GRPC_STATUS` of
`src/http/utils.ts`, named in the spec). -/
def GRPC_STATUS : String := "grpc-status"

/-- Trailer key for the gRPC message (`GRPC_MESSAGE` of
`src/http/utils.ts`, named in the spec). -/
def GRPC_MESSAGE : String := "grpc-message"

/-- The transport state the handlers read (`xhr` fields and response
headers used by `src/http/http.ts`).  `byteSource` is the result of
`toInt8(xhr)` (in `src/http/utils.ts`, not under `src/`; modelled from
the spec: `none` when the response body is empty/unreadable).
`headerStatus`/`headerMessage` are `getResponseHeader` of
`grpc-status`/`grpc-message`. -/
structure Xhr where
  status : Nat
  timeout : Nat
  byteSource : Option (List Nat)
  headerStatus : Option String
  headerMessage : Option String
deriving DecidableEq, Repr

/-- The failure built from a `TRAILERS` chunk
(`src/http/http.ts` lines 185-201): `grpcCode` starts at `OK`, and when
the decoded `grpc-status` is a string, becomes the parsed number if
`code >= 0` (false for `NaN`), else `fromHttpStatus(xhr.status)`. -/
def trailersFailure {ε : Type} (httpStatus : Nat) (fields : List (String × String)) : GErr ε :=
  let message := (tLookup fields GRPC_MESSAGE).getD ""
  let status := tLookup fields GRPC_STATUS
  let grpcCode : GCode :=
    match status with
    | some s =>
      match jsNumber s with
      | some code => if 0 ≤ code then GCode.num code else GCode.num (fromHttpStatus httpStatus)
      | none => GCode.num (fromHttpStatus httpStatus)
    | none => GCode.num StatusCode.OK
  { message := some message
    data := some (ErrData.safeJSONOf message)
    httpStatus := some httpStatus
    grpcCode := grpcCode }

/-- The zero-frames fallback failure (`src/http/http.ts` lines 154-165):
read `grpc-status`/`grpc-message` from the response headers; with no
`grpc-status` header the message is `"Failed to parse GRPC status"` and
`grpcCode` stays `undefined`. -/
def zeroFramesFailure {ε : Type} (x : Xhr) : GErr ε :=
  match x.headerStatus with
  | some status =>
    let message := x.headerMessage.getD ""
    { message := some message
      data := some (ErrData.safeJSONOf message)
      httpStatus := some x.status
      grpcCode := jsNumberCode status }
  | none =>
    { message := some "Failed to parse GRPC status"
      data := some (ErrData.safeJSONOf "Failed to parse GRPC status")
      httpStatus := some x.status
      grpcCode := GCode.undef }

/-- The `for (const d of data)` loop of the load handler
(`src/http/http.ts` lines 167-202): the first chunk decides; a `MESSAGE`
chunk is decoded (a thrown decode error becomes the `"Decode error"`
failure), a `TRAILERS` chunk yields `trailersFailure`.  `none` means the
loop fell through without invoking the promise callback. -/
def scanChunks {α ε : Type} (dec : List Nat → Except ε α) (httpStatus : Nat) :
    List Chunk → Option (GOutput α ε)
  | [] => none
  | Chunk.message payload :: _ =>
    some
      (match dec payload with
      | Except.ok v => GOutput.success v
      | Except.error e =>
        GOutput.failure
          { message := some "Decode error"
            data := some (ErrData.thrown e)
            httpStatus := some httpStatus })
  | Chunk.trailers fields :: _ =>
    some (GOutput.failure (trailersFailure httpStatus fields))

/-- The `load` event handler `onready` (`src/http/http.ts` lines
124-203), after its initial `tmCancel()` (sequenced separately in
`handleEvent`): status gate, byte extraction, frame parse (`cp` stands
for `chunkParse` of `src/http/parser.ts`, with `Except.error` a thrown
framing error), zero-frames fallback, then the chunk scan.  The result
is the argument passed to the promise callback, `none` when no callback
call is reached. -/
def onready {α ε : Type} (cp : List Nat → Except ε (List Chunk))
    (dec : List Nat → Except ε α) (x : Xhr) : Option (GOutput α ε) :=
  if x.status < 200 ∨ 300 ≤ x.status then
    some
      (GOutput.failure
        { message := some "XHR wrong status"
          data := some (ErrData.bufString x.byteSource)
          httpStatus := some x.status
          grpcCode := GCode.num (fromHttpStatus x.status) })
  else
    match x.byteSource with
    | none => some (GOutput.failure { message := some "GRPC no bytes" })
    | some bytes =>
      match cp bytes with
      | Except.error e =>
        some
          (GOutput.failure
            { message := some "GRPC parsing error", data := some (ErrData.thrown e) })
      | Except.ok chunks =>
        if chunks.isEmpty then some (GOutput.failure (zeroFramesFailure x))
        else scanChunks dec x.status chunks

/-- The mutable cancellation state shared by the controller: `cancels`
is the process-wide registry `Record<string, () => void>` of
`src/http/http.ts` line 35 (abort callbacks named by `Nat` identifiers),
`handleAbort` is the `abort` slot of the caller's handle object, and
`invoked` is the trace of abort callbacks invoked so far, in order. -/
structure CState where
  cancels : List (String × Nat)
  handleAbort : Option Nat
  invoked : List Nat
deriving DecidableEq, Repr

/-- Lookup in the registry (`cancels[key]`). -/
def regLookup : List (String × Nat) → String → Option Nat
  | [], _ => none
  | (k, v) :: rest, key => if k = key then some v else regLookup rest key

/-- Removal from the registry (`delete cancels[key]`). -/
def regErase (l : List (String × Nat)) (key : String) : List (String × Nat) :=
  l.filter fun kv => kv.1 ≠ key

/-- Assignment into the registry (`cancels[key] = f`, overwriting any
prior binding). -/
def regInsert (l : List (String × Nat)) (key : String) (v : Nat) : List (String × Nat) :=
  regErase l key ++ [(key, v)]

/-- The `cancel` option of one call (`LocalGRPC.cancel`): absent, a
string key into the registry, or the handle object whose `abort` slot is
`CState.handleAbort`. -/
inductive CancelOpt where
  | omitted : CancelOpt
  | str : String → CancelOpt
  | handle : CancelOpt
deriving DecidableEq, Repr

/-- Lines 42-45 of `src/http/http.ts`: when the call carries a string
key already bound in the registry, invoke the previous abort callback,
then delete its entry. -/
def cancelPrior (cancel : CancelOpt) (s : CState) : CState :=
  match cancel with
  | CancelOpt.str key =>
    match regLookup s.cancels key with
    | some f =>
      { s with invoked := s.invoked ++ [f], cancels := regErase s.cancels key }
    | none => s
  | _ => s

/-- Lines 54-60 of `src/http/http.ts`: install this call's `abortXHR`
(named `newAbort`) under the string key, or into the handle object's
`abort` slot. -/
def installCancel (newAbort : Nat) (cancel : CancelOpt) (s : CState) : CState :=
  match cancel with
  | CancelOpt.omitted => s
  | CancelOpt.str key => { s with cancels := regInsert s.cancels key newAbort }
  | CancelOpt.handle => { s with handleAbort := some newAbort }

/-- The cancellation prelude of one call (`src/http/http.ts` lines
42-60): cancel any prior holder of the key, then install this call's
abort function. -/
def callSetup (newAbort : Nat) (cancel : CancelOpt) (s : CState) : CState :=
  installCancel newAbort cancel (cancelPrior cancel s)

/-- `tmCancel` (`src/http/http.ts` lines 62-70): clear this call's
cancellation state — delete the registry entry for a string key, or set
the handle object's `abort` slot to `undefined`. -/
def tmCancel (cancel : CancelOpt) (s : CState) : CState :=
  match cancel with
  | CancelOpt.omitted => s
  | CancelOpt.str key => { s with cancels := regErase s.cancels key }
  | CancelOpt.handle => { s with handleAbort := none }

/-- One invocation of the handle returned by `grpcCancel`
(`src/http/http.ts` lines 12-19): `CancelFn.abort?.()` then
`CancelFn.abort = undefined`.  Input is the current `abort` slot; the
result is the new slot paired with the list of abort callbacks invoked
by this call (one when the slot held one, none otherwise). -/
def cancelFnInvoke : Option Nat → Option Nat × List Nat
  | some f => (none, [f])
  | none => (none, [])

/-- A terminal transport event of one call. -/
inductive XhrEvent where
  | timeout : XhrEvent
  | abort : XhrEvent
  | error : XhrEvent
  | load : XhrEvent
deriving DecidableEq, Repr

/-- The argument each terminal-event listener passes to the promise
callback (`src/http/http.ts` lines 98-122 and the `load` handler):
`"timeout"` with `data = xhr.timeout`; `"cancelled"` with
`grpcCode = CANCELLED`; `"XHR error"` with the stringified buffer and
`fromHttpStatus(xhr.status)`; for `load`, the `onready` pipeline. -/
def eventOutcome {α ε : Type} (cp : List Nat → Except ε (List Chunk))
    (dec : List Nat → Except ε α) (x : Xhr) : XhrEvent → Option (GOutput α ε)
  | XhrEvent.timeout =>
    some
      (GOutput.failure
        { message := some "timeout", data := some (ErrData.timeoutMs x.timeout) })
  | XhrEvent.abort =>
    some
      (GOutput.failure
        { message := some "cancelled"
          httpStatus := some x.status
          grpcCode := GCode.num StatusCode.CANCELLED })
  | XhrEvent.error =>
    some
      (GOutput.failure
        { message := some "XHR error"
          data := some (ErrData.bufString x.byteSource)
          httpStatus := some x.status
          grpcCode := GCode.num (fromHttpStatus x.status) })
  | XhrEvent.load => onready cp dec x

/-- Modelled from the host language: calling a promise's resolver.  The
first call fixes the settled value; every later call is a no-op. -/
def resolve {α ε : Type} (o : GOutput α ε) :
    Option (GOutput α ε) → Option (GOutput α ε)
  | none => some o
  | some r => some r

/-- One terminal-event listener run: every listener first calls
`tmCancel()` and then (when one of its branches is reached) passes a
failure or success to the promise callback.  The accumulator pairs the
cancellation state with the promise's settled value (`none` while
pending). -/
def handleEvent {α ε : Type} (cancel : CancelOpt)
    (cp : List Nat → Except ε (List Chunk)) (dec : List Nat → Except ε α)
    (x : Xhr) (acc : CState × Option (GOutput α ε)) (ev : XhrEvent) :
    CState × Option (GOutput α ε) :=
  match eventOutcome cp dec x ev with
  | some o => (tmCancel cancel acc.1, resolve o acc.2)
  | none => (tmCancel cancel acc.1, acc.2)

/-- The promise chain after the executor (`src/http/http.ts` lines
230-250): the devtool `.then` returns its input unchanged (side effects
dropped), the second `.then` applies the optional `transformResponse`
(with `Except.error` a thrown exception / rejected result), and the
`.catch` turns any rejection into `{ success: false, error: { data } }`. -/
def promiseChain {α ε : Type}
    (transformResponse : Option (GOutput α ε → Except ε (GOutput α ε)))
    (data : GOutput α ε) : GOutput α ε :=
  let afterTransform : Except ε (GOutput α ε) :=
    match transformResponse with
    | some f => f data
    | none => Except.ok data
  match afterTransform with
  | Except.ok d => d
  | Except.error e => GOutput.failure { data := some (ErrData.thrown e) }

/-! ## Helper lemmas -/

theorem regLookup_regErase (l : List (String × Nat)) (k : String) :
    regLookup (regErase l k) k = none := by
  induction l with
  | nil => rfl
  | cons kv rest ih =>
    by_cases h : kv.1 = k
    · simpa [regErase, List.filter_cons, h] using ih
    · simpa [regErase, List.filter_cons, h, regLookup] using ih

theorem regLookup_append_of_none (l1 l2 : List (String × Nat)) (k : String)
    (h : regLookup l1 k = none) : regLookup (l1 ++ l2) k = regLookup l2 k := by
  induction l1 with
  | nil => rfl
  | cons kv rest ih =>
    by_cases hk : kv.1 = k
    · simp [regLookup, hk] at h
    · simp only [regLookup, hk, if_neg hk, List.cons_append] at h ⊢
      exact ih h

theorem regLookup_regInsert (l : List (String × Nat)) (k : String) (v : Nat) :
    regLookup (regInsert l k v) k = some v := by
  unfold regInsert
  rw [regLookup_append_of_none _ _ _ (regLookup_regErase l k)]
  simp [regLookup]

theorem onready_isSome {α ε : Type} (cp : List Nat → Except ε (List Chunk))
    (dec : List Nat → Except ε α) (x : Xhr) : (onready cp dec x).isSome = true := by
  by_cases h : x.status < 200 ∨ 300 ≤ x.status
  · simp [onready, h]
  · rcases hb : x.byteSource with _ | bytes
    · simp [onready, h, hb]
    · rcases hcp : cp bytes with e | chunks
      · simp [onready, h, hb, hcp]
      · rcases chunks with _ | ⟨c, cs⟩
        · simp [onready, h, hb, hcp]
        · rcases c with payload | fields <;> simp [onready, h, hb, hcp, scanChunks]

theorem foldl_handleEvent_stable {α ε : Type} (cancel : CancelOpt)
    (cp : List Nat → Except ε (List Chunk)) (dec : List Nat → Except ε α) (x : Xhr)
    (l : List XhrEvent) (acc : CState × Option (GOutput α ε))
    (h : acc.2.isSome = true) :
    (List.foldl (handleEvent cancel cp dec x) acc l).2 = acc.2 := by
  induction l generalizing acc with
  | nil => rfl
  | cons ev rest ih =>
    obtain ⟨r, hr⟩ := Option.isSome_iff_exists.mp h
    have hstep : (handleEvent cancel cp dec x acc ev).2 = acc.2 := by
      unfold handleEvent
      cases houtcome : eventOutcome cp dec x ev <;> simp [hr, resolve]
    rw [List.foldl_cons]
    rw [ih _ (by rw [hstep]; exact h)]
    exact hstep

/-! ## Claims -/

/-- C10: invoking the handle returned by `grpcCancel` calls the abort
callback currently stored in its `abort` slot (when one is defined) and
then sets the slot to `undefined`; a second invocation with no
intervening reassignment performs no abort, so invoking twice has the
same effect as invoking once. -/
theorem C10_cancel_handle_idempotent (slot : Option Nat) :
    (cancelFnInvoke slot).1 = none ∧
    (cancelFnInvoke slot).2 = slot.toList ∧
    cancelFnInvoke (cancelFnInvoke slot).1 = (none, ([] : List Nat)) := by
  cases slot <;> simp [cancelFnInvoke]

/-- C7: each of the `timeout`, `abort` and `error` listeners first
clears the call's cancellation state via `tmCancel` (deleting the
string-keyed registry entry, or setting the handle's `abort` slot to
`undefined`) and then resolves the call with the corresponding failure:
`"timeout"`, `"cancelled"` (with `grpcCode = CANCELLED`), and
`"XHR error"`. -/
theorem C7_terminal_events_clear_then_fail {α ε : Type} (cancel : CancelOpt)
    (cp : List Nat → Except ε (List Chunk)) (dec : List Nat → Except ε α)
    (x : Xhr) (s : CState) (k : String) :
    handleEvent cancel cp dec x (s, none) XhrEvent.timeout =
      (tmCancel cancel s,
        some (GOutput.failure
          { message := some "timeout", data := some (ErrData.timeoutMs x.timeout) })) ∧
    handleEvent cancel cp dec x (s, none) XhrEvent.abort =
      (tmCancel cancel s,
        some (GOutput.failure
          { message := some "cancelled"
            httpStatus := some x.status
            grpcCode := GCode.num StatusCode.CANCELLED })) ∧
    handleEvent cancel cp dec x (s, none) XhrEvent.error =
      (tmCancel cancel s,
        some (GOutput.failure
          { message := some "XHR error"
            data := some (ErrData.bufString x.byteSource)
            httpStatus := some x.status
            grpcCode := GCode.num (fromHttpStatus x.status) })) ∧
    regLookup (tmCancel (CancelOpt.str k) s).cancels k = none ∧
    (tmCancel CancelOpt.handle s).handleAbort = none := by
  refine ⟨rfl, rfl, rfl, ?_, rfl⟩
  simpa [tmCancel] using regLookup_regErase s.cancels k

/-- C4: when a call arrives with a string cancel key currently bound in
the registry, the previously stored abort callback is invoked exactly
once and its entry deleted before the new call installs its own abort
function under the same key; consequently a second call reusing the key
invokes the first call's abort function. -/
theorem C4_cancel_key_replace (k : String) (f1 f2 : Nat) (s : CState)
    (h : regLookup s.cancels k = some f1) :
    (cancelPrior (CancelOpt.str k) s).invoked = s.invoked ++ [f1] ∧
    regLookup (cancelPrior (CancelOpt.str k) s).cancels k = none ∧
    callSetup f2 (CancelOpt.str k) s =
      installCancel f2 (CancelOpt.str k) (cancelPrior (CancelOpt.str k) s) ∧
    (callSetup f2 (CancelOpt.str k) s).invoked = s.invoked ++ [f1] ∧
    regLookup (callSetup f2 (CancelOpt.str k) s).cancels k = some f2 ∧
    (callSetup f2 (CancelOpt.str k) (callSetup f1 (CancelOpt.str k) s)).invoked =
      (callSetup f1 (CancelOpt.str k) s).invoked ++ [f1] := by
  have main : ∀ (t : CState) (g1 g2 : Nat), regLookup t.cancels k = some g1 →
      (callSetup g2 (CancelOpt.str k) t).invoked = t.invoked ++ [g1] := by
    intro t g1 g2 ht
    simp [callSetup, installCancel, cancelPrior, ht]
  have hlook : regLookup (callSetup f1 (CancelOpt.str k) s).cancels k = some f1 := by
    simp [callSetup, installCancel, cancelPrior, h, regLookup_regInsert]
  refine ⟨?_, ?_, rfl, main s f1 f2 h, ?_, main _ f1 f2 hlook⟩
  · simp [cancelPrior, h]
  · simpa [cancelPrior, h] using regLookup_regErase s.cancels k
  · simp [callSetup, installCancel, cancelPrior, h, regLookup_regInsert]

/-- C4 witness: a registry holding callback 7 under `"k"`. -/
theorem C4_cancel_key_replace_witness :
    regLookup (⟨[("k", 7)], none, []⟩ : CState).cancels "k" = some 7 ∧
    ((cancelPrior (CancelOpt.str "k") ⟨[("k", 7)], none, []⟩).invoked = [] ++ [7] ∧
      regLookup (cancelPrior (CancelOpt.str "k") ⟨[("k", 7)], none, []⟩).cancels "k" = none ∧
      callSetup 9 (CancelOpt.str "k") ⟨[("k", 7)], none, []⟩ =
        installCancel 9 (CancelOpt.str "k") (cancelPrior (CancelOpt.str "k") ⟨[("k", 7)], none, []⟩) ∧
      (callSetup 9 (CancelOpt.str "k") ⟨[("k", 7)], none, []⟩).invoked = [] ++ [7] ∧
      regLookup (callSetup 9 (CancelOpt.str "k") ⟨[("k", 7)], none, []⟩).cancels "k" = some 9 ∧
      (callSetup 9 (CancelOpt.str "k") (callSetup 7 (CancelOpt.str "k") ⟨[("k", 7)], none, []⟩)).invoked =
        (callSetup 7 (CancelOpt.str "k") ⟨[("k", 7)], none, []⟩).invoked ++ [7]) :=
  ⟨by decide, C4_cancel_key_replace "k" 7 9 ⟨[("k", 7)], none, []⟩ (by decide)⟩

/-- C8: a rejection of the per-call promise chain — here an exception
thrown by the `transformResponse` hook — is caught by the final
`.catch` and converted into the resolved outcome
`{ success: false, error: { data: <raw error> } }`. -/
theorem C8_chain_catch_all {α ε : Type}
    (f : GOutput α ε → Except ε (GOutput α ε)) (data : GOutput α ε) (e : ε)
    (h : f data = Except.error e) :
    promiseChain (some f) data =
      GOutput.failure
        { message := none
          data := some (ErrData.thrown e)
          httpStatus := none
          grpcCode := GCode.undef } := by
  simp [promiseChain, h]

/-- C8 witness: a transform that always throws the error value 7. -/
theorem C8_chain_catch_all_witness :
    (fun _ : GOutput Nat Nat => (Except.error 7 : Except Nat (GOutput Nat Nat)))
        (GOutput.success 0) = Except.error 7 ∧
    promiseChain (some fun _ : GOutput Nat Nat => (Except.error 7 : Except Nat (GOutput Nat Nat)))
        (GOutput.success 0) =
      GOutput.failure
        { message := none
          data := some (ErrData.thrown 7)
          httpStatus := none
          grpcCode := GCode.undef } :=
  ⟨rfl, C8_chain_catch_all _ (GOutput.success 0) 7 rfl⟩

/-- C6: a load event whose HTTP status is below 200 or at least 300
resolves the call to the `"XHR wrong status"` failure carrying the
transport status and `fromHttpStatus(status)` — for any frame parser
`cp`, whose output the result never consults — and `fromHttpStatus`
sends 404 to NOT_FOUND (5). -/
theorem C6_wrong_status {α ε : Type} (cp : List Nat → Except ε (List Chunk))
    (dec : List Nat → Except ε α) (x : Xhr)
    (h : x.status < 200 ∨ 300 ≤ x.status) :
    onready cp dec x =
      some (GOutput.failure
        { message := some "XHR wrong status"
          data := some (ErrData.bufString x.byteSource)
          httpStatus := some x.status
          grpcCode := GCode.num (fromHttpStatus x.status) }) ∧
    fromHttpStatus 404 = StatusCode.NOT_FOUND := by
  exact ⟨by simp [onready, h], rfl⟩

/-- C6 witness: HTTP 404. -/
theorem C6_wrong_status_witness :
    ((404 < 200 ∨ 300 ≤ 404) ∧
      onready (fun _ => Except.ok ([] : List Chunk))
          (fun _ => (Except.ok 0 : Except Nat Nat)) ⟨404, 0, none, none, none⟩ =
        some (GOutput.failure
          { message := some "XHR wrong status"
            data := some (ErrData.bufString none)
            httpStatus := some 404
            grpcCode := GCode.num 5 })) ∧
    fromHttpStatus 404 = 5 := by
  have h := C6_wrong_status (fun _ => Except.ok ([] : List Chunk))
    (fun _ => (Except.ok 0 : Except Nat Nat)) ⟨404, 0, none, none, none⟩
    (Or.inr (by decide))
  exact ⟨⟨Or.inr (by decide), h.1⟩, h.2⟩

/-- C9: a load event with a 2xx status whose response body yields no
readable bytes resolves to the `"GRPC no bytes"` failure, for any frame
parser `cp` (no parse is attempted: the result never consults `cp`). -/
theorem C9_no_bytes {α ε : Type} (cp : List Nat → Except ε (List Chunk))
    (dec : List Nat → Except ε α) (x : Xhr)
    (h1 : 200 ≤ x.status) (h2 : x.status < 300) (hb : x.byteSource = none) :
    onready cp dec x = some (GOutput.failure { message := some "GRPC no bytes" }) := by
  have hno : ¬(x.status < 200 ∨ 300 ≤ x.status) := by omega
  simp [onready, hno, hb]

/-- C9 witness: status 204 with an unreadable body. -/
theorem C9_no_bytes_witness :
    (200 ≤ 204 ∧ 204 < 300 ∧
      (⟨204, 0, none, none, none⟩ : Xhr).byteSource = none) ∧
    onready (fun _ => Except.ok ([] : List Chunk))
        (fun _ => (Except.ok 0 : Except Nat Nat)) ⟨204, 0, none, none, none⟩ =
      some (GOutput.failure { message := some "GRPC no bytes" }) :=
  ⟨⟨by decide, by decide, rfl⟩,
    C9_no_bytes (fun _ => Except.ok ([] : List Chunk))
      (fun _ => (Except.ok 0 : Except Nat Nat)) ⟨204, 0, none, none, none⟩
      (by decide) (by decide) rfl⟩

/-- C5: a 2xx load event whose parsed frames start with a `Message`
frame resolves to `Success` of the decoded payload, and to the
`"Decode error"` failure (carrying the thrown error and the transport
status) when the decode throws. -/
theorem C5_message_first {α ε : Type} (cp : List Nat → Except ε (List Chunk))
    (dec : List Nat → Except ε α) (x : Xhr) (bs payload : List Nat)
    (rest : List Chunk)
    (h1 : 200 ≤ x.status) (h2 : x.status < 300) (hb : x.byteSource = some bs)
    (hp : cp bs = Except.ok (Chunk.message payload :: rest)) :
    onready cp dec x =
      some (match dec payload with
        | Except.ok v => GOutput.success v
        | Except.error e =>
          GOutput.failure
            { message := some "Decode error"
              data := some (ErrData.thrown e)
              httpStatus := some x.status }) := by
  have hno : ¬(x.status < 200 ∨ 300 ≤ x.status) := by omega
  simp [onready, hno, hb, hp, scanChunks]

/-- C5 witness: a message frame decoded by the identity codec, followed
by a failing decode on a second call context. -/
theorem C5_message_first_witness :
    (200 ≤ 200 ∧ 200 < 300 ∧
      (⟨200, 0, some [9], none, none⟩ : Xhr).byteSource = some [9] ∧
      (fun _ : List Nat =>
          Except.ok [Chunk.message [1, 2], Chunk.trailers [("grpc-status", "0")]])
          [9] =
        (Except.ok (Chunk.message [1, 2] :: [Chunk.trailers [("grpc-status", "0")]]) :
          Except Nat (List Chunk))) ∧
    onready
        (fun _ : List Nat =>
          (Except.ok [Chunk.message [1, 2], Chunk.trailers [("grpc-status", "0")]] :
            Except Nat (List Chunk)))
        (fun bs => (Except.ok bs : Except Nat (List Nat)))
        ⟨200, 0, some [9], none, none⟩ =
      some (GOutput.success [1, 2]) :=
  ⟨⟨by decide, by decide, rfl, rfl⟩,
    C5_message_first _ (fun bs => (Except.ok bs : Except Nat (List Nat)))
      ⟨200, 0, some [9], none, none⟩ [9] [1, 2]
      [Chunk.trailers [("grpc-status", "0")]] (by decide) (by decide) rfl rfl⟩

/-- C2: a 2xx load event whose parsed frames start with a `Trailers`
frame resolves to a failure whose message is the trailers'
`grpc-message` value (empty string when absent) and whose `grpcCode` is
OK (0) when no `grpc-status` string is present, the parsed number when
`Number(grpc-status)` is at least 0, and `fromHttpStatus(xhr.status)`
otherwise (negative or non-numeric, i.e. `NaN`). -/
theorem C2_trailers_first {α ε : Type} (cp : List Nat → Except ε (List Chunk))
    (dec : List Nat → Except ε α) (x : Xhr) (bs : List Nat)
    (fields : List (String × String)) (rest : List Chunk)
    (h1 : 200 ≤ x.status) (h2 : x.status < 300) (hb : x.byteSource = some bs)
    (hp : cp bs = Except.ok (Chunk.trailers fields :: rest)) :
    onready cp dec x =
      some (GOutput.failure
        { message := some ((tLookup fields GRPC_MESSAGE).getD "")
          data := some (ErrData.safeJSONOf ((tLookup fields GRPC_MESSAGE).getD ""))
          httpStatus := some x.status
          grpcCode :=
            match tLookup fields GRPC_STATUS with
            | none => GCode.num StatusCode.OK
            | some s =>
              match jsNumber s with
              | some n =>
                if 0 ≤ n then GCode.num n else GCode.num (fromHttpStatus x.status)
              | none => GCode.num (fromHttpStatus x.status) }) := by
  have hno : ¬(x.status < 200 ∨ 300 ≤ x.status) := by omega
  rcases hst : tLookup fields GRPC_STATUS with _ | s
  · simp [onready, hno, hb, hp, scanChunks, trailersFailure, hst]
  · rcases hn : jsNumber s with _ | n <;>
      simp [onready, hno, hb, hp, scanChunks, trailersFailure, hst, hn]

/-- C2 witness: a sole trailers frame with `grpc-status: 3` and
`grpc-message: "bad arg"`. -/
theorem C2_trailers_first_witness :
    (200 ≤ 200 ∧ 200 < 300 ∧
      (⟨200, 0, some [5], none, none⟩ : Xhr).byteSource = some [5] ∧
      (fun _ : List Nat =>
          (Except.ok [Chunk.trailers [("grpc-status", "3"), ("grpc-message", "bad arg")]] :
            Except Nat (List Chunk))) [5] =
        Except.ok (Chunk.trailers [("grpc-status", "3"), ("grpc-message", "bad arg")] :: [])) ∧
    onready
        (fun _ : List Nat =>
          (Except.ok [Chunk.trailers [("grpc-status", "3"), ("grpc-message", "bad arg")]] :
            Except Nat (List Chunk)))
        (fun _ => (Except.ok 0 : Except Nat Nat)) ⟨200, 0, some [5], none, none⟩ =
      some (GOutput.failure
        { message := some "bad arg"
          data := some (ErrData.safeJSONOf "bad arg")
          httpStatus := some 200
          grpcCode := GCode.num 3 }) :=
  ⟨⟨by decide, by decide, rfl, rfl⟩,
    C2_trailers_first _ (fun _ => (Except.ok 0 : Except Nat Nat))
      ⟨200, 0, some [5], none, none⟩ [5]
      [("grpc-status", "3"), ("grpc-message", "bad arg")] []
      (by decide) (by decide) rfl rfl⟩

/-- C3: a 2xx load event with readable bytes whose frame parse returns
zero frames falls back to the response status-line headers: with a
`grpc-status` header the failure carries the `grpc-message` header
(empty string when absent) and `grpcCode = Number(grpc-status)`; with no
`grpc-status` header the failure is `"Failed to parse GRPC status"`
with `grpcCode` undefined.  With one or more frames the result is the
chunk scan, which takes no header input — the fallback is used only in
the zero-frames case. -/
theorem C3_zero_frames_fallback {α ε : Type}
    (cp : List Nat → Except ε (List Chunk)) (dec : List Nat → Except ε α)
    (x : Xhr) (bs : List Nat) (chunks : List Chunk)
    (h1 : 200 ≤ x.status) (h2 : x.status < 300) (hb : x.byteSource = some bs)
    (_hne : bs ≠ []) (hp : cp bs = Except.ok chunks) :
    (chunks = [] →
      onready cp dec x =
        some (GOutput.failure
          (match x.headerStatus with
          | some st =>
            { message := some (x.headerMessage.getD "")
              data := some (ErrData.safeJSONOf (x.headerMessage.getD ""))
              httpStatus := some x.status
              grpcCode := jsNumberCode st }
          | none =>
            { message := some "Failed to parse GRPC status"
              data := some (ErrData.safeJSONOf "Failed to parse GRPC status")
              httpStatus := some x.status
              grpcCode := GCode.undef }))) ∧
    (chunks ≠ [] → onready cp dec x = scanChunks dec x.status chunks) := by
  have hno : ¬(x.status < 200 ∨ 300 ≤ x.status) := by omega
  constructor
  · intro hc
    subst hc
    rcases hhs : x.headerStatus with _ | st <;>
      simp [onready, hno, hb, hp, zeroFramesFailure, hhs]
  · intro hc
    rcases chunks with _ | ⟨c, cs⟩
    · exact absurd rfl hc
    · simp [onready, hno, hb, hp]

/-- C3 witness: zero frames with headers `grpc-status: 7`,
`grpc-message: boom`. -/
theorem C3_zero_frames_fallback_witness :
    (200 ≤ 200 ∧ 200 < 300 ∧
      (⟨200, 0, some [1], some "7", some "boom"⟩ : Xhr).byteSource = some [1] ∧
      ([1] : List Nat) ≠ [] ∧
      (fun _ : List Nat => (Except.ok [] : Except Nat (List Chunk))) [1] =
        Except.ok []) ∧
    onready (fun _ : List Nat => (Except.ok [] : Except Nat (List Chunk)))
        (fun _ => (Except.ok 0 : Except Nat Nat))
        ⟨200, 0, some [1], some "7", some "boom"⟩ =
      some (GOutput.failure
        { message := some "boom"
          data := some (ErrData.safeJSONOf "boom")
          httpStatus := some 200
          grpcCode := GCode.num 7 }) :=
  ⟨⟨by decide, by decide, rfl, by decide, rfl⟩,
    (C3_zero_frames_fallback _ (fun _ => (Except.ok 0 : Except Nat Nat))
        ⟨200, 0, some [1], some "7", some "boom"⟩ [1] []
        (by decide) (by decide) rfl (by decide) rfl).1 rfl⟩

/-- C1: however many terminal events the transport fires (timeout,
abort, error, load, in any order, duplicates included), the promise
settles with exactly one outcome: the first event settles it
(`isSome`), and running any sequence of further terminal-event
listeners leaves the delivered result unchanged. -/
theorem C1_first_event_decides {α ε : Type} (cancel : CancelOpt)
    (cp : List Nat → Except ε (List Chunk)) (dec : List Nat → Except ε α)
    (x : Xhr) (s0 : CState) (e : XhrEvent) (rest : List XhrEvent) :
    (List.foldl (handleEvent cancel cp dec x)
        (s0, (none : Option (GOutput α ε))) (e :: rest)).2 =
      (handleEvent cancel cp dec x (s0, none) e).2 ∧
    ((handleEvent cancel cp dec x (s0, none) e).2).isSome = true := by
  have hfirst : ((handleEvent cancel cp dec x (s0, none) e).2).isSome = true := by
    cases e with
    | load =>
      obtain ⟨o, ho⟩ := Option.isSome_iff_exists.mp (onready_isSome cp dec x)
      simp [handleEvent, eventOutcome, ho, resolve]
    | timeout => rfl
    | abort => rfl
    | error => rfl
  refine ⟨?_, hfirst⟩
  rw [List.foldl_cons]
  exact foldl_handleEvent_stable cancel cp dec x rest _ hfirst

end GrpcTs
